import Mathlib

/-!
Verification development for the AURORA repository (AWARE framework:
Assess, Weigh, Act, Reflect, Enrich).

The Python sources are shallowly embedded: dictionaries become association
lists (insertion-ordered, updated in place like Python dicts), floats become
rationals, and the external control plane and telemetry source are
parameters.  Free-text fields that no logic reads (rule "reason" strings,
rationale text, timestamps) are omitted; every field that any other
function in the repository reads is kept.
-/

/-! ## Association-list dictionaries (Python dict semantics) -/

/-- Lookup of a key in an insertion-ordered association list (Python `d[k]` /
`d.get(k)`). -/
def dict_get? {α β : Type} [DecidableEq α] : List (α × β) → α → Option β
  | [], _ => none
  | (k, v) :: rest, key => if k = key then some v else dict_get? rest key

/-- Assignment `d[k] = v` on an insertion-ordered association list: replaces
the value in place if the key is present, otherwise appends at the end,
exactly as a Python dict preserves insertion order. -/
def dict_set {α β : Type} [DecidableEq α] : List (α × β) → α → β → List (α × β)
  | [], key, v => [(key, v)]
  | (k, w) :: rest, key, v =>
      if k = key then (k, v) :: rest else (k, w) :: dict_set rest key v

/-- Python `collections.defaultdict(int)` increment `d[k] += 1`. -/
def dict_bump {α : Type} [DecidableEq α] (m : List (α × Nat)) (k : α) : List (α × Nat) :=
  dict_set m k ((dict_get? m k).getD 0 + 1)

/-- Python `derived_metrics.get(key, 0)`. -/
def metric_get (d : List (String × ℚ)) (k : String) : ℚ :=
  (dict_get? d k).getD 0

/-- Python `max(list)` with `default=0.0` (the default is only used on an
empty list; a non-empty list folds `max` over its own elements). -/
def list_max : List ℚ → ℚ
  | [] => 0
  | x :: xs => xs.foldl max x

/-! ## Configuration constants (constants.py) -/

/-- MAX_PODS = 5 in constants.py. -/
def MAX_PODS : ℤ := 5

/-- THRESHOLDS["http.error.rate"] = 0.05. -/
def max_error_rate : ℚ := 5 / 100

/-- THRESHOLDS["http.latency"] = 1000. -/
def max_latency : ℚ := 1000

/-- THRESHOLDS["http.throughput"] = 10. -/
def min_throughput : ℚ := 10

/-- THRESHOLDS["cost.per.request"] = 0.001. -/
def max_cost_per_request : ℚ := 1 / 1000

/-- SUCCESS_THRESHOLD = 0.8 in constants.py. -/
def SUCCESS_THRESHOLD : ℚ := 8 / 10

/-- DEGRADATION_THRESHOLD = -0.1 in constants.py. -/
def DEGRADATION_THRESHOLD : ℚ := -1 / 10

/-- RL_UPDATE_FREQUENCY = 10 in constants.py. -/
def RL_UPDATE_FREQUENCY : Nat := 10

/-- EnrichAgent.__init__ sets self.learning_rate = 0.1. -/
def learning_rate : ℚ := 1 / 10

/-- EnrichAgent.__init__ sets self.discount_factor = 0.95. -/
def discount_factor : ℚ := 95 / 100

/-- PATTERN_MINING_MIN_SUPPORT * 10 = 3 (the support floor used in
_mine_patterns). -/
def pattern_support_floor : Nat := 3

/-- PATTERN_MINING_MIN_CONFIDENCE = 0.7. -/
def PATTERN_MINING_MIN_CONFIDENCE : ℚ := 7 / 10

/-! ## Data model -/

/-- One SLO violation as produced by AssessAgent._check_slo_violations.
Only the fields read elsewhere in the repository are kept: "metric"
(read by ReflectAgent._detect_side_effects) and "severity" (read by
WeighAgent rule 5, default 4 when absent is irrelevant since assessment
always sets it). -/
structure SLOViolation where
  metric : String
  severity : Nat
deriving DecidableEq, Repr

/-- A system snapshot as consumed by the Weigh/Reflect/Enrich agents:
derived metric values, SLO violations, anomaly map (metric id to anomalous
sample indices) and health score. Raw metrics are dropped: no embedded
function reads them. -/
structure Snapshot where
  derived_metrics : List (String × ℚ)
  slo_violations : List SLOViolation
  anomalies : List (String × List Nat)
  health_score : ℚ
deriving DecidableEq, Repr

/-- A candidate action dictionary from WeighAgent._generate_candidates.
`operation` is the empty string when the Python dict has no "operation" key
(the restart candidate), matching every reader, which uses
`action.get("operation", "")` or never reads it. `amount` and `factor` are
`none` when the Python dict lacks the key. `utility` is `none` before
_evaluate_utilities assigns it; every reader uses `get("utility", 0)`. -/
structure Candidate where
  name : String
  service : String
  operation : String
  amount : Option ℤ
  factor : Option ℚ
  priority : Nat
  utility : Option ℚ
deriving DecidableEq, Repr

/-- The decision package built by WeighAgent.weigh (rationale text and
timestamp omitted: no logic reads them). -/
structure Decision where
  service : String
  actions : List Candidate
  candidates_evaluated : Nat
  confidence : ℚ
  utility_scores : List (String × ℚ)
deriving DecidableEq, Repr

/-! ## Decision Engine (weigh_agent.py) -/

/-- Rule-based candidate generation, WeighAgent._generate_candidates.
Rules 1/2 are an if/elif pair, rules 3/4 are an if/elif pair, rules 5 and 6
are independent ifs; candidates are appended in rule order. -/
def generate_candidates (derived_metrics : List (String × ℚ))
    (slo_violations : List SLOViolation) (anomalies : List (String × List Nat))
    (service : String) : List Candidate :=
  let error_rate := metric_get derived_metrics "http.error.rate"
  let latency := metric_get derived_metrics "http.latency"
  let throughput := metric_get derived_metrics "http.throughput"
  let cost_per_request := metric_get derived_metrics "cost.per.request"
  (if error_rate > max_error_rate ∨ latency > max_latency then
    [{ name := "horizontal", service := service, operation := "increase",
       amount := some 1, factor := none, priority := 1, utility := none }]
   else if error_rate < max_error_rate * (25 / 100) ∧
           latency < max_latency * (1 / 2) ∧ throughput < min_throughput then
    [{ name := "horizontal", service := service, operation := "decrease",
       amount := some 1, factor := none, priority := 3, utility := none }]
   else []) ++
  (if cost_per_request > max_cost_per_request * (105 / 100) then
    [{ name := "vertical", service := service, operation := "increase",
       amount := none, factor := some (3 / 2), priority := 2, utility := none }]
   else if cost_per_request < max_cost_per_request * (1 / 2) then
    [{ name := "vertical", service := service, operation := "decrease",
       amount := none, factor := some (3 / 4), priority := 3, utility := none }]
   else []) ++
  (if (slo_violations.filter (fun v => v.severity ≤ 2)) ≠ [] then
    [{ name := "horizontal", service := service, operation := "increase",
       amount := some 2, factor := none, priority := 0, utility := none }]
   else []) ++
  (if anomalies.length > 5 then
    [{ name := "restart", service := service, operation := "",
       amount := none, factor := none, priority := 2, utility := none }]
   else [])

/-- Utility of one candidate, the loop body of WeighAgent._evaluate_utilities. -/
def candidate_utility (c : Candidate) (derived_metrics : List (String × ℚ))
    (health_score : ℚ) : ℚ :=
  let base_utility : ℚ := 100 - (c.priority : ℚ) * 20
  if c.name = "horizontal" then
    (if c.operation = "increase" then base_utility * (1 - health_score / 100)
     else base_utility * (health_score / 100))
  else if c.name = "vertical" then
    (let cost_per_request := metric_get derived_metrics "cost.per.request"
     if c.operation = "increase" then
       base_utility * min (cost_per_request / max_cost_per_request) 2
     else
       base_utility * max (1 - cost_per_request / max_cost_per_request) (1 / 2))
  else if c.name = "restart" then base_utility * (1 - health_score / 100)
  else base_utility

/-- WeighAgent._evaluate_utilities: stores the utility on every candidate. -/
def evaluate_utilities (candidates : List Candidate)
    (derived_metrics : List (String × ℚ)) (health_score : ℚ) : List Candidate :=
  candidates.map (fun c =>
    { c with utility := some (candidate_utility c derived_metrics health_score) })

/-- WeighAgent._select_actions: `sorted(candidates, key=utility, reverse=True)`
is a stable descending sort, so its head is the first candidate attaining the
maximal utility; the fold below keeps the current best and replaces it only on
a strictly larger utility, which computes exactly that element.
_apply_learned_policies returns its input unchanged (placeholder). -/
def select_actions (evaluated_candidates : List Candidate) : List Candidate :=
  match evaluated_candidates with
  | [] => []
  | c :: rest =>
      [rest.foldl (fun best x =>
        if x.utility.getD 0 > best.utility.getD 0 then x else best) c]

/-- WeighAgent._compute_confidence. -/
def compute_confidence (actions : List Candidate) (health_score : ℚ) : ℚ :=
  match actions with
  | [] => if health_score > 80 then 9 / 10 else 1 / 2
  | a :: rest =>
      let max_utility := list_max ((a :: rest).map (fun x => x.utility.getD 0))
      min (max_utility / 100) 1

/-- The dict comprehension building Decision.utility_scores in WeighAgent.weigh:
`\x7ba["name"]: a.get("utility", 0) for a in evaluated_candidates\x7d`.
A dict comprehension assigns keys left to right, so a later candidate with the
same name overwrites the earlier entry. -/
def build_utility_scores (evaluated_candidates : List Candidate) : List (String × ℚ) :=
  evaluated_candidates.foldl (fun m c => dict_set m c.name (c.utility.getD 0)) []

/-- WeighAgent.weigh: generate, score, select, package. -/
def weigh (system_snapshot : Snapshot) (service : String) : Decision :=
  let candidates := generate_candidates system_snapshot.derived_metrics
    system_snapshot.slo_violations system_snapshot.anomalies service
  let evaluated_candidates := evaluate_utilities candidates
    system_snapshot.derived_metrics system_snapshot.health_score
  let selected_actions := select_actions evaluated_candidates
  { service := service
    actions := selected_actions
    candidates_evaluated := candidates.length
    confidence := compute_confidence selected_actions system_snapshot.health_score
    utility_scores := build_utility_scores evaluated_candidates }

/-! ## Mutation Executor (act_agent.py) -/

/-- ActAgent._horizontal_scale, the new-replica-count computation:
`min(curr + amount, MAX_PODS)` on "increase", `max(curr - amount, 1)` on any
other operation (the code comments the else branch "# decrease"). -/
def horizontal_new_count (operation : String) (curr_replicas amount : ℤ) : ℤ :=
  if operation = "increase" then min (curr_replicas + amount) MAX_PODS
  else max (curr_replicas - amount) 1

/-- Modelled from the spec: the clamp the specification ascribes to both
scaling directions, `clamp(current ± amount, 1, MAX_PODS)`.  Kept separate
from the source translation `horizontal_new_count` so the two can be
compared. -/
def clamp_spec (x : ℤ) : ℤ :=
  max (min x MAX_PODS) 1

/-- Outcome of one control-plane fetch/modify/patch attempt, as seen by
ActAgent._retry_deployment_patch: the patch raised ConflictError, succeeded,
or raised any other exception. -/
inductive PatchOutcome where
  | conflict
  | ok
  | err
deriving DecidableEq, Repr

/-- Trace of one _retry_deployment_patch run: overall result, number of
attempts made, the body submitted to patch on each attempt (in order), and
the back-off sleeps performed (seconds, in order). -/
structure RetryTrace (Obj : Type) where
  success : Bool
  attempts_made : Nat
  patched_bodies : List Obj
  sleeps : List ℚ
deriving DecidableEq, Repr

/-- Loop body of ActAgent._retry_deployment_patch. `fetch t` is the
deployment object the control plane returns for the fetch of attempt `t`
(the loop re-fetches at the top of every iteration); `modify` is the
modify_fn applied to that fresh object; `patch_outcome t` is what the patch
call of attempt `t` does.  On ConflictError the loop sleeps
`1 + attempt * 0.5` seconds and retries; on any other error it returns
False immediately; after the loop exhausts max_retries it returns False. -/
def retry_go {Obj : Type} (fetch : Nat → Obj) (patch_outcome : Nat → PatchOutcome)
    (modify : Obj → Obj) : Nat → Nat → RetryTrace Obj
  | _, 0 => { success := false, attempts_made := 0, patched_bodies := [], sleeps := [] }
  | attempt, remaining + 1 =>
      let body := modify (fetch attempt)
      match patch_outcome attempt with
      | .ok => { success := true, attempts_made := 1, patched_bodies := [body], sleeps := [] }
      | .err => { success := false, attempts_made := 1, patched_bodies := [body], sleeps := [] }
      | .conflict =>
          let rest := retry_go fetch patch_outcome modify (attempt + 1) remaining
          { success := rest.success
            attempts_made := rest.attempts_made + 1
            patched_bodies := body :: rest.patched_bodies
            sleeps := (1 + (attempt : ℚ) * (1 / 2)) :: rest.sleeps }

/-- ActAgent._retry_deployment_patch with the default max_retries = 3 used by
_vertical_scale. -/
def retry_deployment_patch {Obj : Type} (fetch : Nat → Obj)
    (patch_outcome : Nat → PatchOutcome) (modify : Obj → Obj) : RetryTrace Obj :=
  retry_go fetch patch_outcome modify 0 3

/-! ## Outcome Evaluator (reflect_agent.py) -/

/-- One entry of the improvements/degradations lists built by
ReflectAgent._identify_improvements / _identify_degradations. -/
structure MetricChange where
  metric : String
  pre_value : ℚ
  post_value : ℚ
  change_pct : ℚ
deriving DecidableEq, Repr

/-- Result dictionary of ActAgent.act as read downstream: the overall
success flag, the number of actions executed, and the collected error
strings (per-action result dicts are not read by Reflect or Enrich). -/
structure ExecutionResult where
  success : Bool
  actions_executed : Nat
  errors : List String
deriving DecidableEq, Repr

/-- A reflection dictionary from ReflectAgent.reflect.  Keys that the
failure branch does not set are `none` / `[]` there, matching every reader,
which uses `.get` with exactly those defaults.  Timestamp, pre/post health
and recommendation strings are omitted (only logging reads them). -/
structure Reflection where
  success : Bool
  reason : Option String
  health_delta : Option ℚ
  improvements : List MetricChange
  degradations : List MetricChange
  side_effects : List String
  errors : List String
  actions_taken : List String
deriving DecidableEq, Repr

/-- Shared body of ReflectAgent._identify_improvements and
_identify_degradations: walk the post-adaptation metrics in order, keep those
also present pre-adaptation, compute the percent change (0 when the
pre-value is 0), classify by the fixed metric-direction table, and keep
changes of magnitude above 5 percent.  `improving` selects which direction
counts. -/
def identify_changes (improving : Bool) (pre_state post_state : Snapshot) :
    List MetricChange :=
  post_state.derived_metrics.filterMap (fun p =>
    match dict_get? pre_state.derived_metrics p.1 with
    | none => none
    | some pre_value =>
        let post_value := p.2
        let change_pct : ℚ :=
          if pre_value ≠ 0 then ((post_value - pre_value) / |pre_value|) * 100 else 0
        let classified : Bool :=
          if p.1 = "http.error.rate" ∨ p.1 = "http.latency" ∨ p.1 = "cost.per.request" then
            (if improving then post_value < pre_value else post_value > pre_value)
          else if p.1 = "http.throughput" then
            (if improving then post_value > pre_value else post_value < pre_value)
          else false
        if classified ∧ |change_pct| > 5 then
          some { metric := p.1, pre_value := pre_value, post_value := post_value,
                 change_pct := change_pct }
        else none)

/-- ReflectAgent._evaluate_success. -/
def evaluate_success (health_delta : ℚ) (improvements degradations : List MetricChange) :
    Bool :=
  if health_delta > SUCCESS_THRESHOLD * 100 then true
  else if health_delta < DEGRADATION_THRESHOLD * 100 then false
  else if improvements.length > degradations.length then true
  else if improvements ≠ [] ∧ degradations ≠ [] then
    decide ((improvements.map (fun i => |i.change_pct|)).sum / improvements.length >
            (degradations.map (fun d => |d.change_pct|)).sum / degradations.length)
  else if improvements ≠ [] then true
  else false

/-- ReflectAgent._detect_side_effects.  Python takes set differences of
metric names; sets iterate in an unspecified order, so the embedded order
(post-list order, duplicates removed) is one admissible order — no caller
inspects these strings. -/
def detect_side_effects (pre_state post_state : Snapshot)
    (actions : List Candidate) : List String :=
  let pre_violations := pre_state.slo_violations.map (fun v => v.metric)
  let post_violations := post_state.slo_violations.map (fun v => v.metric)
  let new_violations := (post_violations.filter (fun m => m ∉ pre_violations)).dedup
  let pre_anomalies := pre_state.anomalies.map (fun p => p.1)
  let post_anomalies := post_state.anomalies.map (fun p => p.1)
  let new_anomalies := (post_anomalies.filter (fun m => m ∉ pre_anomalies)).dedup
  (if new_violations ≠ [] then
    ["New SLO violations introduced: " ++ String.intercalate ", " new_violations]
   else []) ++
  (if new_anomalies ≠ [] then
    ["New anomalies detected: " ++ String.intercalate ", " new_anomalies]
   else []) ++
  actions.filterMap (fun a =>
    if a.name = "horizontal" ∧ a.operation = "increase" ∧
        metric_get post_state.derived_metrics "cost.per.request" >
          metric_get pre_state.derived_metrics "cost.per.request" * (3 / 2) then
      some "Cost per request increased significantly after scaling up"
    else none)

/-- ReflectAgent.reflect.  When the execution result reports failure it
short-circuits to a reflection with success False and reason
"Execution failed", performing no metric comparison; otherwise it compares
the two snapshots and evaluates overall success. -/
def reflect (pre_state post_state : Snapshot) (decision : Decision)
    (execution_result : ExecutionResult) : Reflection :=
  if ¬ execution_result.success then
    { success := false
      reason := some "Execution failed"
      health_delta := none
      improvements := []
      degradations := []
      side_effects := []
      errors := execution_result.errors
      actions_taken := [] }
  else
    let improvements := identify_changes true pre_state post_state
    let degradations := identify_changes false pre_state post_state
    let health_delta := post_state.health_score - pre_state.health_score
    { success := evaluate_success health_delta improvements degradations
      reason := none
      health_delta := some health_delta
      improvements := improvements
      degradations := degradations
      side_effects := detect_side_effects pre_state post_state decision.actions
      errors := []
      actions_taken := decision.actions.map (fun a => a.name) }

/-! ## Learning Engine (enrich_agent.py) -/

/-- A promoted pattern stored in the knowledge base by
EnrichAgent._mine_patterns. -/
structure Pattern where
  pattern_key : String
  action_type : String
  operation : String
  support : Nat
  confidence : ℚ
  avg_health_delta : ℚ
deriving DecidableEq, Repr

/-- The "statistics" sub-dictionary of the knowledge base, created lazily by
EnrichAgent._update_statistics. -/
structure Stats where
  total_adaptations : Nat
  successful_adaptations : Nat
  action_counts : List (String × Nat)
  action_successes : List (String × Nat)
deriving DecidableEq, Repr

/-- The shared knowledge-base dictionary: its "patterns" and "statistics"
entries, each absent until first written (the Q-table and the raw pattern
counters live on the agent object, not in this dictionary). -/
structure KB where
  patterns : List (String × Pattern)
  statistics : Option Stats
deriving DecidableEq, Repr

/-- EnrichAgent state: the learning-cycle counter, the pattern-mining
counters, the Q-table, the in-memory knowledge base, and `durable` — the
contents of the pickle file at knowledge_base_path, i.e. what
_load_knowledge_base would return after a restart. Only
_save_knowledge_base writes `durable`. -/
structure EnrichState where
  learning_cycles : Nat
  pattern_counts : List (String × Nat)
  pattern_successes : List (String × Nat)
  q_table : List ((String × String) × ℚ)
  kb : KB
  durable : KB
deriving DecidableEq, Repr

/-- A freshly constructed EnrichAgent with no pre-existing knowledge-base
file (both the in-memory and the durable knowledge base are empty). -/
def initial_enrich_state : EnrichState :=
  { learning_cycles := 0, pattern_counts := [], pattern_successes := [],
    q_table := [], kb := ⟨[], none⟩, durable := ⟨[], none⟩ }

/-- Result dictionary of EnrichAgent.enrich (timestamp omitted). -/
structure EnrichmentResult where
  learning_cycle : Nat
  patterns_learned : List Pattern
  policies_updated : List (String × String)
  knowledge_base_size : Nat
  q_table_size : Nat
deriving DecidableEq, Repr

/-- EnrichAgent._create_pattern_key: fixed low/medium/high buckets joined
with the action kind and operation. -/
def create_pattern_key (derived_metrics : List (String × ℚ)) (action : Candidate) :
    String :=
  let error_rate := metric_get derived_metrics "http.error.rate"
  let latency := metric_get derived_metrics "http.latency"
  let throughput := metric_get derived_metrics "http.throughput"
  let error_bucket := if error_rate > 5 / 100 then "high"
    else if error_rate > 1 / 100 then "medium" else "low"
  let latency_bucket := if latency > 1000 then "high"
    else if latency > 500 then "medium" else "low"
  let throughput_bucket := if throughput > 50 then "high"
    else if throughput > 10 then "medium" else "low"
  error_bucket ++ "_" ++ latency_bucket ++ "_" ++ throughput_bucket ++ "_" ++
    action.name ++ "_" ++ action.operation

/-- EnrichAgent._mine_patterns: per action, bump the occurrence counter (and
the success counter on success), and promote the pattern into the knowledge
base once support ≥ 3 and confidence ≥ 0.7.  Returns the promoted patterns
together with the updated counters and knowledge base. -/
def mine_patterns (pattern_counts pattern_successes : List (String × Nat)) (kb : KB)
    (pre_state : Snapshot) (actions : List Candidate) (success : Bool)
    (health_delta : ℚ) :
    List Pattern × List (String × Nat) × List (String × Nat) × KB :=
  actions.foldl (fun acc action =>
    let (patterns, counts, successes, kb) := acc
    let pattern_key := create_pattern_key pre_state.derived_metrics action
    let counts := dict_bump counts pattern_key
    let successes := if success then dict_bump successes pattern_key else successes
    let support := (dict_get? counts pattern_key).getD 0
    let confidence : ℚ :=
      if support > 0 then ((dict_get? successes pattern_key).getD 0 : ℚ) / support
      else 0
    if support ≥ pattern_support_floor ∧ confidence ≥ PATTERN_MINING_MIN_CONFIDENCE then
      let pattern : Pattern :=
        { pattern_key := pattern_key, action_type := action.name,
          operation := action.operation, support := support,
          confidence := confidence, avg_health_delta := health_delta }
      (patterns ++ [pattern], counts, successes,
        { kb with patterns := dict_set kb.patterns pattern_key pattern })
    else (patterns, counts, successes, kb))
    ([], pattern_counts, pattern_successes, kb)

/-- EnrichAgent._calculate_reward: normalized health delta plus a +10 bonus
on success or a −5 penalty on failure. -/
def calculate_reward (health_delta : ℚ) (success : Bool) : ℚ :=
  health_delta / 10 + (if success then 10 else -5)

/-- EnrichAgent._get_state_key: discretized (error-level, latency-level,
health-level) triple. -/
def get_state_key (state : Snapshot) : String :=
  let error_rate := metric_get state.derived_metrics "http.error.rate"
  let latency := metric_get state.derived_metrics "http.latency"
  let health := state.health_score
  let error_level := if error_rate > 5 / 100 then "high"
    else if error_rate > 1 / 100 then "medium" else "low"
  let latency_level := if latency > 1000 then "high"
    else if latency > 500 then "medium" else "low"
  let health_level := if health < 50 then "critical"
    else if health < 80 then "degraded" else "healthy"
  error_level ++ "_" ++ latency_level ++ "_" ++ health_level

/-- EnrichAgent._get_possible_actions: the fixed five-element action-key
space (the restart key has an empty operation suffix). -/
def get_possible_actions : List String :=
  ["horizontal_increase", "horizontal_decrease", "vertical_increase",
   "vertical_decrease", "restart_"]

/-- EnrichAgent._update_rl_policies: one-step tabular Q-learning update for
each taken action, sequentially mutating the Q-table; the next-state
maximum ranges over the fixed action-key list, each key defaulting to 0
when absent, and unseen (state, action) pairs read as 0. -/
def update_rl_policies (q_table : List ((String × String) × ℚ))
    (pre_state post_state : Snapshot) (actions : List Candidate) (success : Bool)
    (health_delta : ℚ) : List ((String × String) × ℚ) × List (String × String) :=
  let reward := calculate_reward health_delta success
  let pre_state_key := get_state_key pre_state
  let post_state_key := get_state_key post_state
  actions.foldl (fun acc action =>
    let (q_table, updated) := acc
    let action_key := action.name ++ "_" ++ action.operation
    let q_key := (pre_state_key, action_key)
    let current_q := (dict_get? q_table q_key).getD 0
    let next_max_q := list_max (get_possible_actions.map (fun a =>
      (dict_get? q_table (post_state_key, a)).getD 0))
    let new_q := current_q +
      learning_rate * (reward + discount_factor * next_max_q - current_q)
    (dict_set q_table q_key new_q, updated ++ [q_key]))
    (q_table, [])

/-- EnrichAgent._update_statistics: lazily create the statistics dictionary,
then bump the aggregate and per-action counters (success counters only on a
successful cycle). -/
def update_statistics (kb : KB) (actions : List Candidate) (success : Bool) : KB :=
  let stats := kb.statistics.getD
    { total_adaptations := 0, successful_adaptations := 0,
      action_counts := [], action_successes := [] }
  let stats := { stats with
    total_adaptations := stats.total_adaptations + 1
    successful_adaptations :=
      stats.successful_adaptations + (if success then 1 else 0) }
  let stats := actions.foldl (fun st action =>
    { st with
      action_counts := dict_bump st.action_counts action.name
      action_successes :=
        if success then dict_bump st.action_successes action.name
        else st.action_successes }) stats
  { kb with statistics := some stats }

/-- EnrichAgent.enrich: bump the learning-cycle counter, mine patterns,
run the Q-learning update (RL_ENABLED is True), update the statistics, and
persist the knowledge base to the pickle file exactly when the counter is a
multiple of RL_UPDATE_FREQUENCY. -/
def enrich (st : EnrichState) (reflection : Reflection) (decision : Decision)
    (pre_state post_state : Snapshot) : EnrichState × EnrichmentResult :=
  let learning_cycles := st.learning_cycles + 1
  let success := reflection.success
  let actions := decision.actions
  let health_delta := reflection.health_delta.getD 0
  let mined :=
    mine_patterns st.pattern_counts st.pattern_successes st.kb pre_state actions
      success health_delta
  let patterns_learned := mined.1
  let rl :=
    update_rl_policies st.q_table pre_state post_state actions success health_delta
  let q_table := rl.1
  let kb := update_statistics mined.2.2.2 actions success
  let durable := if learning_cycles % RL_UPDATE_FREQUENCY = 0 then kb else st.durable
  ({ learning_cycles := learning_cycles, pattern_counts := mined.2.1,
     pattern_successes := mined.2.2.1, q_table := q_table, kb := kb,
     durable := durable },
   { learning_cycle := learning_cycles, patterns_learned := patterns_learned,
     policies_updated := rl.2,
     knowledge_base_size := kb.patterns.length, q_table_size := q_table.length })

/-- The human-readable JSON export written by EnrichAgent.export_knowledge
(metadata timestamp omitted). -/
structure ExportData where
  learning_cycles : Nat
  patterns : List (String × Pattern)
  statistics : Option Stats
deriving DecidableEq, Repr

/-- EnrichAgent.export_knowledge: a read-only JSON dump of the in-memory
knowledge base; it does not write the pickle file at knowledge_base_path. -/
def export_knowledge (st : EnrichState) : ExportData :=
  { learning_cycles := st.learning_cycles, patterns := st.kb.patterns,
    statistics := st.kb.statistics }

/-- The shutdown path of monitoring_aware.main: on KeyboardInterrupt (and
likewise on an unexpected exception) it calls orchestrator.export_knowledge
and exits.  The agent state — in particular the durable pickle file — is
not otherwise touched. -/
def shutdown_flush (st : EnrichState) : EnrichState × ExportData :=
  (st, export_knowledge st)

/-! ## Cycle Orchestrator (aware_orchestrator.py) -/

/-- Result of one AWAREOrchestrator.run_aware_cycle, restricted to the data
the cycle produces (per-phase durations and CSV logging omitted). -/
structure CycleOutcome where
  status : String
  decision : Option Decision
  execution : Option ExecutionResult
  reflection : Option Reflection
  enrichment : Option EnrichmentResult
  enrich_state : EnrichState
deriving DecidableEq, Repr

/-- AWAREOrchestrator.run_aware_cycle.  `pre_assess` / `post_assess` are the
two assess calls' results (None models a failed assessment) and `act_fn` is
the Mutation Executor applied to the decision.  The phases run in source
order: abort when assessment fails; stop as stable when the decision has no
actions; otherwise act, re-assess (falling back to the pre-adaptation
snapshot when the post-assessment fails), reflect, and enrich — with no
check of the execution result's success flag in between. -/
def run_aware_cycle (enrich_st : EnrichState) (pre_assess post_assess : Option Snapshot)
    (act_fn : Decision → ExecutionResult) (service : String) : CycleOutcome :=
  match pre_assess with
  | none =>
      { status := "aborted", decision := none, execution := none,
        reflection := none, enrichment := none, enrich_state := enrich_st }
  | some system_snapshot =>
      let decision := weigh system_snapshot service
      if decision.actions = [] then
        { status := "stable", decision := some decision, execution := none,
          reflection := none, enrichment := none, enrich_state := enrich_st }
      else
        let execution_result := act_fn decision
        let post_snapshot := post_assess.getD system_snapshot
        let reflection := reflect system_snapshot post_snapshot decision execution_result
        let enriched :=
          enrich enrich_st reflection decision system_snapshot post_snapshot
        { status := "completed", decision := some decision,
          execution := some execution_result, reflection := some reflection,
          enrichment := some enriched.2, enrich_state := enriched.1 }

/-! ## Claim C3: optimistic-concurrency retry -/

/-- C3: against a control plane that reports a version conflict on the first
two patch attempts and succeeds on the third, _retry_deployment_patch
returns success after exactly 3 attempts, applying the multiplicative
transform to the freshly fetched object of each attempt (never a stale
one — the submitted bodies are modify (fetch 0), modify (fetch 1),
modify (fetch 2) for arbitrary fetch results), sleeping 1 + 0.5 × attempt
seconds after each conflict; a non-conflict error aborts immediately
without retrying, whether it happens on the first attempt or after a
conflict. -/
theorem c3_conflict_retry {Obj : Type} (fetch : Nat → Obj) (modify : Obj → Obj) :
    retry_deployment_patch fetch (fun t => if t < 2 then .conflict else .ok) modify =
      { success := true, attempts_made := 3,
        patched_bodies := [modify (fetch 0), modify (fetch 1), modify (fetch 2)],
        sleeps := [1, 3 / 2] } ∧
    retry_deployment_patch fetch (fun _ => .err) modify =
      { success := false, attempts_made := 1,
        patched_bodies := [modify (fetch 0)], sleeps := [] } ∧
    retry_deployment_patch fetch (fun t => if t = 0 then .conflict else .err) modify =
      { success := false, attempts_made := 2,
        patched_bodies := [modify (fetch 0), modify (fetch 1)], sleeps := [1] } := by
  refine ⟨?_, ?_, ?_⟩ <;> simp [retry_deployment_patch, retry_go] <;> norm_num

/-! ## Claim C6: horizontal scaling bounds -/

/-- C6 counterexample: with MAX_PODS = 5, a scale-in from 8 replicas by 1
writes 7, which is above MAX_PODS and differs from the claimed
clamp(current − amount, 1, MAX_PODS) = 5: the written count is not the
claimed clamp and scale-in can write above MAX_PODS. -/
theorem c6_counterexample :
    horizontal_new_count "decrease" 8 1 = 7 ∧
    clamp_spec (8 - 1) = 5 ∧
    MAX_PODS < horizontal_new_count "decrease" 8 1 := by decide

/-- C6 amended: for every nonnegative current replica count and positive
amount, scale-out writes min(current + amount, MAX_PODS), which coincides
with clamp(current + amount, 1, MAX_PODS) and lies in [1, MAX_PODS];
scale-in writes max(current − amount, 1), which never goes below 1 but is
not clamped above MAX_PODS. -/
theorem c6_amended (curr amount : ℤ) (hc : 0 ≤ curr) (ha : 1 ≤ amount) :
    (horizontal_new_count "increase" curr amount = clamp_spec (curr + amount) ∧
     1 ≤ horizontal_new_count "increase" curr amount ∧
     horizontal_new_count "increase" curr amount ≤ MAX_PODS) ∧
    1 ≤ horizontal_new_count "decrease" curr amount := by
  simp only [horizontal_new_count, clamp_spec, MAX_PODS, if_pos, if_neg,
    reduceCtorEq, String.reduceEq, reduceIte]
  omega

/-- C6 witness: the amended statement instantiated at current = 3,
amount = 1. -/
theorem c6_amended_witness :
    (0 : ℤ) ≤ 3 ∧ (1 : ℤ) ≤ 1 ∧
    ((horizontal_new_count "increase" 3 1 = clamp_spec (3 + 1) ∧
      1 ≤ horizontal_new_count "increase" 3 1 ∧
      horizontal_new_count "increase" 3 1 ≤ MAX_PODS) ∧
     1 ≤ horizontal_new_count "decrease" 3 1) :=
  ⟨by decide, by decide, c6_amended 3 1 (by decide) (by decide)⟩

/-! ## Claim C4: overall-success rule of the Outcome Evaluator -/

/-- Modelled from the spec: the overall-success rule exactly as the claim
words it — after the two health-delta thresholds, success iff improvements
outnumber degradations, or (only when the counts are tied) the average
improvement magnitude exceeds the average degradation magnitude, or
improvements exist with no degradations; false in all remaining cases,
including when degradations outnumber improvements. -/
def spec_success_c4 (health_delta : ℚ)
    (improvements degradations : List MetricChange) : Bool :=
  if health_delta > SUCCESS_THRESHOLD * 100 then true
  else if health_delta < DEGRADATION_THRESHOLD * 100 then false
  else if improvements.length > degradations.length then true
  else if improvements.length = degradations.length ∧
      improvements ≠ [] ∧ degradations ≠ [] then
    decide ((improvements.map fun i => |i.change_pct|).sum / improvements.length >
            (degradations.map fun d => |d.change_pct|).sum / degradations.length)
  else if improvements ≠ [] ∧ degradations = [] then true
  else false

/-- Concrete improvement list for the C4 counterexample: one 90 percent
improvement. -/
def c4_improvements : List MetricChange :=
  [{ metric := "http.latency", pre_value := 100, post_value := 10, change_pct := -90 }]

/-- Concrete degradation list for the C4 counterexample: two 10 percent
degradations, so degradations outnumber improvements. -/
def c4_degradations : List MetricChange :=
  [{ metric := "http.error.rate", pre_value := 1 / 100, post_value := 11 / 1000,
     change_pct := 10 },
   { metric := "cost.per.request", pre_value := 1 / 1000, post_value := 11 / 10000,
     change_pct := 10 }]

/-- C4 counterexample: with health delta 0, one 90 percent improvement and
two 10 percent degradations, the code returns success (the average-magnitude
comparison fires whenever both lists are non-empty, not only on a tie),
while the claimed rule returns failure because degradations outnumber
improvements. -/
theorem c4_counterexample :
    evaluate_success 0 c4_improvements c4_degradations = true ∧
    spec_success_c4 0 c4_improvements c4_degradations = false := by
  constructor <;>
    simp [evaluate_success, spec_success_c4, c4_improvements, c4_degradations,
      SUCCESS_THRESHOLD, DEGRADATION_THRESHOLD] <;> norm_num

/-- C4 amended: the overall success flag is true iff health_delta exceeds
SUCCESS_THRESHOLD×100, or health_delta is not below DEGRADATION_THRESHOLD×100
and either improvements outnumber degradations, or both lists are non-empty
(regardless of which is longer) and the average magnitude of improvements
exceeds that of degradations; false in all remaining cases, including the
no-change case. -/
theorem c4_amended (health_delta : ℚ)
    (improvements degradations : List MetricChange) :
    evaluate_success health_delta improvements degradations = true ↔
      (health_delta > SUCCESS_THRESHOLD * 100 ∨
       (¬ health_delta < DEGRADATION_THRESHOLD * 100 ∧
        (improvements.length > degradations.length ∨
         (improvements ≠ [] ∧ degradations ≠ [] ∧
          (improvements.map fun i => |i.change_pct|).sum / improvements.length >
            (degradations.map fun d => |d.change_pct|).sum / degradations.length)))) := by
  unfold evaluate_success
  split_ifs with h1 h2 h3 h4 h5
  · simp [h1]
  · simp_all
  · simp_all
  · rw [decide_eq_true_eq]
    constructor
    · intro hgt
      exact Or.inr ⟨h2, Or.inr ⟨h4.1, h4.2, hgt⟩⟩
    · rintro (h | ⟨-, h | ⟨-, -, hgt⟩⟩)
      · exact absurd h h1
      · exact absurd h h3
      · exact hgt
  · exfalso
    rcases not_and_or.mp h4 with h | h
    · exact h5 (not_not.mp h)
    · have hdeg := not_not.mp h
      apply h5
      rw [hdeg] at h3
      have hlen : improvements.length = 0 := by
        simpa using h3
      exact List.length_eq_zero.mp hlen
  · have himp := not_not.mp h5
    subst himp
    simp [h1]

/-! ## Claim C2: stability of healthy snapshots -/

/-- C2 counterexample: a snapshot with health 100, no violations and no
anomalies but empty derived metrics (so every metric reads as its default
0) makes rule 2 (low load) and rule 4 (very low cost) fire: the Decision
Engine generates two candidates, not zero, and the decision carries a
scale-in action rather than an empty list. -/
theorem c2_counterexample :
    generate_candidates [] [] [] "svc" =
      [{ name := "horizontal", service := "svc", operation := "decrease",
         amount := some 1, factor := none, priority := 3, utility := none },
       { name := "vertical", service := "svc", operation := "decrease",
         amount := none, factor := some (3 / 4), priority := 3, utility := none }] ∧
    (weigh { derived_metrics := [], slo_violations := [], anomalies := [],
             health_score := 100 } "svc").actions =
      [{ name := "horizontal", service := "svc", operation := "decrease",
         amount := some 1, factor := none, priority := 3, utility := some 40 }] := by
  constructor <;>
    (simp [weigh, generate_candidates, evaluate_utilities, candidate_utility,
      select_actions, metric_get, dict_get?, max_error_rate, max_latency,
      min_throughput, max_cost_per_request] <;> norm_num) <;> decide

/-- C2 amended: a snapshot with health 100, no violations and no anomalies
yields zero candidates (and an empty action list) provided the derived
metrics are also in the nominal band — error rate and latency at or below
their thresholds, the low-load scale-in condition not met, and
cost-per-request neither above 105 percent nor below 50 percent of its
threshold.  Without the metric conditions candidates can still be
generated. -/
theorem c2_amended (d : List (String × ℚ)) (service : String)
    (h1 : ¬ metric_get d "http.error.rate" > max_error_rate)
    (h2 : ¬ metric_get d "http.latency" > max_latency)
    (h3 : ¬ (metric_get d "http.error.rate" < max_error_rate * (25 / 100) ∧
             metric_get d "http.latency" < max_latency * (1 / 2) ∧
             metric_get d "http.throughput" < min_throughput))
    (h4 : ¬ metric_get d "cost.per.request" > max_cost_per_request * (105 / 100))
    (h5 : ¬ metric_get d "cost.per.request" < max_cost_per_request * (1 / 2)) :
    generate_candidates d [] [] service = [] ∧
    (weigh { derived_metrics := d, slo_violations := [], anomalies := [],
             health_score := 100 } service).actions = [] := by
  have hgen : generate_candidates d [] [] service = [] := by
    simp only [generate_candidates]
    rw [if_neg (not_or.mpr ⟨h1, h2⟩), if_neg h3, if_neg h4, if_neg h5]
    simp
  exact ⟨hgen, by simp [weigh, hgen, evaluate_utilities, select_actions]⟩

/-- Nominal derived metrics used by the C2 witness: every rule condition is
off. -/
def c2_nominal_metrics : List (String × ℚ) :=
  [("http.error.rate", 2 / 100), ("http.latency", 600),
   ("http.throughput", 20), ("cost.per.request", 8 / 10000)]

/-- C2 witness: the amended statement instantiated at the nominal metrics. -/
theorem c2_amended_witness :
    (¬ metric_get c2_nominal_metrics "http.error.rate" > max_error_rate) ∧
    (¬ metric_get c2_nominal_metrics "http.latency" > max_latency) ∧
    (¬ (metric_get c2_nominal_metrics "http.error.rate" < max_error_rate * (25 / 100) ∧
        metric_get c2_nominal_metrics "http.latency" < max_latency * (1 / 2) ∧
        metric_get c2_nominal_metrics "http.throughput" < min_throughput)) ∧
    (¬ metric_get c2_nominal_metrics "cost.per.request" >
        max_cost_per_request * (105 / 100)) ∧
    (¬ metric_get c2_nominal_metrics "cost.per.request" <
        max_cost_per_request * (1 / 2)) ∧
    (generate_candidates c2_nominal_metrics [] [] "svc" = [] ∧
     (weigh { derived_metrics := c2_nominal_metrics, slo_violations := [],
              anomalies := [], health_score := 100 } "svc").actions = []) := by
  have e1 : ¬ metric_get c2_nominal_metrics "http.error.rate" > max_error_rate := by
    simp [metric_get, dict_get?, c2_nominal_metrics, max_error_rate] <;> norm_num
  have e2 : ¬ metric_get c2_nominal_metrics "http.latency" > max_latency := by
    simp [metric_get, dict_get?, c2_nominal_metrics, max_latency] <;> norm_num
  have e3 : ¬ (metric_get c2_nominal_metrics "http.error.rate" <
        max_error_rate * (25 / 100) ∧
      metric_get c2_nominal_metrics "http.latency" < max_latency * (1 / 2) ∧
      metric_get c2_nominal_metrics "http.throughput" < min_throughput) := by
    simp [metric_get, dict_get?, c2_nominal_metrics, max_error_rate, max_latency,
      min_throughput] <;> norm_num
  have e4 : ¬ metric_get c2_nominal_metrics "cost.per.request" >
      max_cost_per_request * (105 / 100) := by
    simp [metric_get, dict_get?, c2_nominal_metrics, max_cost_per_request] <;> norm_num
  have e5 : ¬ metric_get c2_nominal_metrics "cost.per.request" <
      max_cost_per_request * (1 / 2) := by
    simp [metric_get, dict_get?, c2_nominal_metrics, max_cost_per_request] <;> norm_num
  exact ⟨e1, e2, e3, e4, e5, c2_amended c2_nominal_metrics "svc" e1 e2 e3 e4 e5⟩

/-! ## Claim C7: end-to-end decision scenario -/

/-- Derived metrics of the spec scenario: error rate 0.08 against threshold
0.05, all other metrics nominal. -/
def scenario_metrics : List (String × ℚ) :=
  [("http.error.rate", 8 / 100), ("http.latency", 600),
   ("http.throughput", 20), ("cost.per.request", 8 / 10000)]

/-- Scenario snapshot: health 40, no violations. -/
def scenario_snapshot : Snapshot :=
  { derived_metrics := scenario_metrics, slo_violations := [], anomalies := [],
    health_score := 40 }

/-- Scenario snapshot with an additional severity-1 SLO violation. -/
def scenario_snapshot_crit : Snapshot :=
  { derived_metrics := scenario_metrics,
    slo_violations := [{ metric := "net.http.error.count", severity := 1 }],
    anomalies := [], health_score := 40 }

/-- C7: on the scenario snapshot the Decision Engine proposes the tier-1
scale-out with utility 80 × (1 − 0.4) = 48; with the severity-1 violation
present it additionally proposes the tier-0 emergency scale-out (amount 2)
with utility 100 × 0.6 = 60 and selects the emergency candidate over the
tier-1 candidate. -/
theorem c7_scenario :
    evaluate_utilities (generate_candidates scenario_metrics [] [] "svc")
        scenario_metrics 40 =
      [{ name := "horizontal", service := "svc", operation := "increase",
         amount := some 1, factor := none, priority := 1, utility := some 48 }] ∧
    evaluate_utilities
        (generate_candidates scenario_metrics scenario_snapshot_crit.slo_violations
          [] "svc") scenario_metrics 40 =
      [{ name := "horizontal", service := "svc", operation := "increase",
         amount := some 1, factor := none, priority := 1, utility := some 48 },
       { name := "horizontal", service := "svc", operation := "increase",
         amount := some 2, factor := none, priority := 0, utility := some 60 }] ∧
    (weigh scenario_snapshot_crit "svc").actions =
      [{ name := "horizontal", service := "svc", operation := "increase",
         amount := some 2, factor := none, priority := 0, utility := some 60 }] := by
  refine ⟨?_, ?_, ?_⟩ <;>
    (simp [weigh, scenario_snapshot_crit, scenario_metrics, generate_candidates,
      evaluate_utilities, candidate_utility, select_actions, metric_get, dict_get?,
      max_error_rate, max_latency, min_throughput, max_cost_per_request] <;> norm_num)

/-! ## Claim C8: utility monotonicity in priority tier -/

/-- Helper: every candidate generated by the rule set is one of the six
literal rule outputs, so its priority determines its action kind and
operation. -/
theorem generate_candidates_shape (d : List (String × ℚ)) (v : List SLOViolation)
    (a : List (String × List Nat)) (s : String) (c : Candidate)
    (hc : c ∈ generate_candidates d v a s) :
    (c.priority = 0 → c.name = "horizontal" ∧ c.operation = "increase") ∧
    (c.priority = 3 →
      (c.name = "horizontal" ∨ c.name = "vertical") ∧ c.operation = "decrease") := by
  simp only [generate_candidates, List.mem_append] at hc
  rcases hc with ((h | h) | h) | h <;>
    · split_ifs at h <;> simp at h <;> subst h <;> simp

/-- Tier-3 scale-in candidate of the C8 cycle, before utility assignment. -/
def c8_tier3_scale_in : Candidate :=
  { name := "horizontal", service := "svc", operation := "decrease",
    amount := some 1, factor := none, priority := 3, utility := none }

/-- Tier-3 resize-down candidate of the C8 cycle, before utility assignment. -/
def c8_tier3_resize_down : Candidate :=
  { name := "vertical", service := "svc", operation := "decrease",
    amount := none, factor := some (3 / 4), priority := 3, utility := none }

/-- Tier-0 emergency scale-out candidate of the C8 cycle, before utility
assignment. -/
def c8_tier0_emergency : Candidate :=
  { name := "horizontal", service := "svc", operation := "increase",
    amount := some 2, factor := none, priority := 0, utility := none }

/-- The candidate list generated for the C8 cycle: empty metrics (all
defaults) and one severity-1 violation fire rules 2, 4 and 5. -/
theorem c8_cycle_candidates :
    generate_candidates [] [{ metric := "net.error.count", severity := 1 }] [] "svc" =
      [c8_tier3_scale_in, c8_tier3_resize_down, c8_tier0_emergency] := by
  simp [generate_candidates, c8_tier3_scale_in, c8_tier3_resize_down,
    c8_tier0_emergency, metric_get, dict_get?, max_error_rate, max_latency,
    min_throughput, max_cost_per_request] <;> norm_num

/-- C8 counterexample: at health 90, the cycle that generates both the
tier-0 emergency scale-out and the tier-3 scale-in assigns utility 10 to
the tier-0 candidate and utility 36 to the tier-3 candidate: the tier-0
utility is strictly below the tier-3 utility, so utility is not monotonic
in priority tier. -/
theorem c8_counterexample :
    evaluate_utilities
        (generate_candidates [] [{ metric := "net.error.count", severity := 1 }] [] "svc")
        [] 90 =
      [{ c8_tier3_scale_in with utility := some 36 },
       { c8_tier3_resize_down with utility := some 40 },
       { c8_tier0_emergency with utility := some 10 }] ∧
    (10 : ℚ) < 36 := by
  constructor
  · rw [c8_cycle_candidates]
    simp [evaluate_utilities, candidate_utility, c8_tier3_scale_in,
      c8_tier3_resize_down, c8_tier0_emergency, metric_get, dict_get?,
      max_cost_per_request] <;> norm_num
  · norm_num

/-- C8 amended: the base utility 100 − 20×tier is monotonic in tier, and
the full state-scaled utility of a tier-0 candidate still dominates every
tier-3 candidate of the same cycle whenever the health score is at most 60
and the cost-per-request metric is nonnegative; at higher health scores the
ordering can invert (see the counterexample). -/
theorem c8_amended (d : List (String × ℚ)) (v : List SLOViolation)
    (a : List (String × List Nat)) (s : String) (h : ℚ) (c0 c3 : Candidate)
    (hh : h ≤ 60) (hcost : 0 ≤ metric_get d "cost.per.request")
    (hm0 : c0 ∈ generate_candidates d v a s)
    (hm3 : c3 ∈ generate_candidates d v a s)
    (hp0 : c0.priority = 0) (hp3 : c3.priority = 3) :
    candidate_utility c3 d h ≤ candidate_utility c0 d h := by
  obtain ⟨hs0, -⟩ := generate_candidates_shape d v a s c0 hm0
  obtain ⟨-, hs3⟩ := generate_candidates_shape d v a s c3 hm3
  obtain ⟨hn0, ho0⟩ := hs0 hp0
  obtain ⟨hn3, ho3⟩ := hs3 hp3
  have hu0 : candidate_utility c0 d h = 100 * (1 - h / 100) := by
    simp [candidate_utility, hn0, ho0, hp0]
  rcases hn3 with hn3 | hn3
  · have hu3 : candidate_utility c3 d h = 40 * (h / 100) := by
      simp [candidate_utility, hn3, ho3, hp3]
      norm_num
    rw [hu0, hu3]
    linarith
  · have hu3 : candidate_utility c3 d h =
        40 * max (1 - metric_get d "cost.per.request" / max_cost_per_request) (1 / 2) := by
      simp [candidate_utility, hn3, ho3, hp3]
      norm_num
    have hmax : max (1 - metric_get d "cost.per.request" / max_cost_per_request)
        (1 / 2) ≤ 1 := by
      apply max_le
      · have hq : 0 ≤ metric_get d "cost.per.request" / max_cost_per_request := by
          apply div_nonneg hcost
          norm_num [max_cost_per_request]
        linarith
      · norm_num
    rw [hu0, hu3]
    nlinarith [hmax]

/-- C8 witness: the amended statement instantiated at health 50 with one
severity-1 violation and empty metrics, comparing the tier-0 emergency
candidate against the tier-3 scale-in candidate of the same cycle. -/
theorem c8_amended_witness :
    (50 : ℚ) ≤ 60 ∧
    (0 : ℚ) ≤ metric_get [] "cost.per.request" ∧
    c8_tier0_emergency ∈
      generate_candidates [] [{ metric := "net.error.count", severity := 1 }] [] "svc" ∧
    c8_tier3_scale_in ∈
      generate_candidates [] [{ metric := "net.error.count", severity := 1 }] [] "svc" ∧
    c8_tier0_emergency.priority = 0 ∧
    c8_tier3_scale_in.priority = 3 ∧
    candidate_utility c8_tier3_scale_in [] 50 ≤ candidate_utility c8_tier0_emergency [] 50 := by
  have hm0 : c8_tier0_emergency ∈
      generate_candidates [] [{ metric := "net.error.count", severity := 1 }] [] "svc" := by
    rw [c8_cycle_candidates]; simp
  have hm3 : c8_tier3_scale_in ∈
      generate_candidates [] [{ metric := "net.error.count", severity := 1 }] [] "svc" := by
    rw [c8_cycle_candidates]; simp
  exact ⟨by norm_num, by simp [metric_get, dict_get?], hm0, hm3, rfl, rfl,
    c8_amended [] [{ metric := "net.error.count", severity := 1 }] [] "svc" 50 _ _
      (by norm_num) (by simp [metric_get, dict_get?]) hm0 hm3 rfl rfl⟩

/-! ## Claim C10: utility scores recorded per candidate -/

/-- Helper: looking up the key just set. -/
theorem dict_get?_dict_set_self {α β : Type} [DecidableEq α]
    (m : List (α × β)) (k : α) (v : β) :
    dict_get? (dict_set m k v) k = some v := by
  induction m with
  | nil => simp [dict_set, dict_get?]
  | cons p rest ih =>
      obtain ⟨a, w⟩ := p
      by_cases h : a = k
      · simp [dict_set, dict_get?, h]
      · simp [dict_set, dict_get?, h, ih]

/-- Helper: setting one key leaves other lookups unchanged. -/
theorem dict_get?_dict_set_ne {α β : Type} [DecidableEq α]
    (m : List (α × β)) (k k' : α) (v : β) (h : k' ≠ k) :
    dict_get? (dict_set m k v) k' = dict_get? m k' := by
  have hkk : ¬ k = k' := fun he => h he.symm
  induction m with
  | nil => simp [dict_set, dict_get?, hkk]
  | cons p rest ih =>
      obtain ⟨a, w⟩ := p
      by_cases ha : a = k
      · subst ha
        simp [dict_set, dict_get?, hkk]
      · simp [dict_set, dict_get?, ha, ih]

/-- Helper: dict_set only ever appends the new key at the end, so the key
list stays duplicate-free. -/
theorem keys_dict_set {α β : Type} [DecidableEq α] (m : List (α × β)) (k : α) (v : β) :
    (dict_set m k v).map Prod.fst =
      if k ∈ m.map Prod.fst then m.map Prod.fst else m.map Prod.fst ++ [k] := by
  induction m with
  | nil => simp [dict_set]
  | cons p rest ih =>
      obtain ⟨a, w⟩ := p
      by_cases h : a = k
      · subst h
        simp [dict_set]
      · have hka : ¬ k = a := fun he => h he.symm
        simp only [dict_set, if_neg h, List.map_cons, ih, List.mem_cons]
        by_cases hk : k ∈ rest.map Prod.fst
        · simp [hk, hka]
        · simp [hk, hka]

/-- Helper: dict_set preserves duplicate-freeness of the key list. -/
theorem nodup_keys_dict_set {α β : Type} [DecidableEq α] (m : List (α × β))
    (k : α) (v : β) (h : (m.map Prod.fst).Nodup) :
    ((dict_set m k v).map Prod.fst).Nodup := by
  rw [keys_dict_set]
  by_cases hk : k ∈ m.map Prod.fst
  · simpa [hk] using h
  · simp only [if_neg hk]
    simp [List.nodup_append, h, hk]

/-- The last candidate in a list carrying a given action name — the one
whose utility a Python dict comprehension keyed by name retains. -/
def last_candidate_named (l : List Candidate) (k : String) : Option Candidate :=
  l.foldl (fun acc c => if c.name = k then some c else acc) none

/-- Helper: the latest-match fold from an arbitrary accumulator. -/
theorem foldl_latest_named (l : List Candidate) (k : String) (o : Option Candidate) :
    l.foldl (fun acc c => if c.name = k then some c else acc) o =
      match l.foldl (fun acc c => if c.name = k then some c else acc) none with
      | some c => some c
      | none => o := by
  induction l generalizing o with
  | nil => simp
  | cons c l ih =>
      simp only [List.foldl_cons]
      by_cases h : c.name = k
      · rw [if_pos h, if_pos h, ih (some c)]
        cases l.foldl (fun acc c => if c.name = k then some c else acc) none <;> simp
      · rw [if_neg h, if_neg h, ih o]

/-- Helper: a lookup in the name-keyed score dictionary returns the utility
of the last candidate with that name, falling back to the initial
dictionary. -/
theorem dict_get?_scores_foldl (l : List Candidate) (m : List (String × ℚ)) (k : String) :
    dict_get? (l.foldl (fun acc c => dict_set acc c.name (c.utility.getD 0)) m) k =
      match last_candidate_named l k with
      | some c => some (c.utility.getD 0)
      | none => dict_get? m k := by
  induction l generalizing m with
  | nil => simp [last_candidate_named]
  | cons c l ih =>
      simp only [List.foldl_cons, last_candidate_named]
      rw [ih, foldl_latest_named l k]
      by_cases h : c.name = k
      · rw [if_pos h]
        cases hfl : l.foldl (fun acc c => if c.name = k then some c else acc) none with
        | some c' => simp [last_candidate_named, hfl]
        | none =>
            simp only [last_candidate_named, hfl]
            rw [h]
            exact dict_get?_dict_set_self m k _
      · rw [if_neg h]
        cases hfl : l.foldl (fun acc c => if c.name = k then some c else acc) none with
        | some c' => simp [last_candidate_named, hfl]
        | none =>
            simp only [last_candidate_named, hfl]
            exact dict_get?_dict_set_ne m c.name k _ (fun he => h he.symm)

/-- Helper: the score dictionary's key list is duplicate-free. -/
theorem nodup_keys_scores_foldl (l : List Candidate) (m : List (String × ℚ))
    (h : (m.map Prod.fst).Nodup) :
    ((l.foldl (fun acc c => dict_set acc c.name (c.utility.getD 0)) m).map
      Prod.fst).Nodup := by
  induction l generalizing m with
  | nil => exact h
  | cons c l ih => exact ih _ (nodup_keys_dict_set m c.name _ h)

/-- C10 counterexample: in the scenario cycle where a tier-1 scale-out and
the tier-0 emergency scale-out co-fire, two candidates are evaluated but the
decision's utility_scores map — keyed by action name — has a single entry
"horizontal", holding only the emergency candidate's utility 60; it does
not contain one entry per generated candidate. -/
theorem c10_counterexample :
    (weigh scenario_snapshot_crit "svc").candidates_evaluated = 2 ∧
    (weigh scenario_snapshot_crit "svc").utility_scores = [("horizontal", 60)] ∧
    (weigh scenario_snapshot_crit "svc").utility_scores.length ≠
      (weigh scenario_snapshot_crit "svc").candidates_evaluated := by
  refine ⟨?_, ?_, ?_⟩ <;>
    (simp [weigh, scenario_snapshot_crit, scenario_metrics, generate_candidates,
      evaluate_utilities, candidate_utility, select_actions, build_utility_scores,
      dict_set, compute_confidence, list_max, metric_get, dict_get?, max_error_rate,
      max_latency, min_throughput, max_cost_per_request] <;> norm_num) <;>
    simp [dict_set]

/-- C10 amended: the decision's utility_scores map holds one entry per
distinct action name among the evaluated candidates (its key list is
duplicate-free), and the entry for a name is the utility of the last
evaluated candidate carrying that name; co-firing candidates of the same
action kind collapse to the later one's score. -/
theorem c10_amended (snap : Snapshot) (service : String) :
    ((weigh snap service).utility_scores.map Prod.fst).Nodup ∧
    ∀ k : String,
      dict_get? (weigh snap service).utility_scores k =
        (last_candidate_named
          (evaluate_utilities
            (generate_candidates snap.derived_metrics snap.slo_violations
              snap.anomalies service)
            snap.derived_metrics snap.health_score) k).map
          (fun c => c.utility.getD 0) := by
  constructor
  · exact nodup_keys_scores_foldl _ [] (by simp)
  · intro k
    show dict_get? (build_utility_scores _) k = _
    rw [build_utility_scores, dict_get?_scores_foldl]
    cases last_candidate_named
        (evaluate_utilities
          (generate_candidates snap.derived_metrics snap.slo_violations
            snap.anomalies service)
          snap.derived_metrics snap.health_score) k <;>
      simp [dict_get?]

/-! ## Claim C5: tabular Q-learning update -/

/-- C5: on an enrich call whose decision carries one taken action, that
action's value-table entry becomes Q(s,a) + α × (reward + γ × max Q(s',·) −
Q(s,a)), where the reward is health_delta/10 plus a +10 bonus on success or
a −5 penalty on failure, unseen entries read as 0 (the .getD 0 defaults),
and the next-state maximum ranges over the fixed five-element action-key
space rather than observed history; no other entry changes (the table is
the old one with that single key set). -/
theorem c5_q_update (st : EnrichState) (reflection : Reflection)
    (decision : Decision) (pre_state post_state : Snapshot) (a : Candidate)
    (ha : decision.actions = [a]) :
    get_possible_actions =
      ["horizontal_increase", "horizontal_decrease", "vertical_increase",
       "vertical_decrease", "restart_"] ∧
    (enrich st reflection decision pre_state post_state).1.q_table =
      dict_set st.q_table
        (get_state_key pre_state, a.name ++ "_" ++ a.operation)
        ((dict_get? st.q_table
            (get_state_key pre_state, a.name ++ "_" ++ a.operation)).getD 0 +
          learning_rate *
            (reflection.health_delta.getD 0 / 10 +
               (if reflection.success then 10 else -5) +
             discount_factor *
               list_max (get_possible_actions.map (fun b =>
                 (dict_get? st.q_table (get_state_key post_state, b)).getD 0)) -
             (dict_get? st.q_table
               (get_state_key pre_state, a.name ++ "_" ++ a.operation)).getD 0)) ∧
    dict_get? (enrich st reflection decision pre_state post_state).1.q_table
        (get_state_key pre_state, a.name ++ "_" ++ a.operation) =
      some ((dict_get? st.q_table
            (get_state_key pre_state, a.name ++ "_" ++ a.operation)).getD 0 +
          learning_rate *
            (reflection.health_delta.getD 0 / 10 +
               (if reflection.success then 10 else -5) +
             discount_factor *
               list_max (get_possible_actions.map (fun b =>
                 (dict_get? st.q_table (get_state_key post_state, b)).getD 0)) -
             (dict_get? st.q_table
               (get_state_key pre_state, a.name ++ "_" ++ a.operation)).getD 0)) := by
  have htab : (enrich st reflection decision pre_state post_state).1.q_table =
      dict_set st.q_table
        (get_state_key pre_state, a.name ++ "_" ++ a.operation)
        ((dict_get? st.q_table
            (get_state_key pre_state, a.name ++ "_" ++ a.operation)).getD 0 +
          learning_rate *
            (reflection.health_delta.getD 0 / 10 +
               (if reflection.success then 10 else -5) +
             discount_factor *
               list_max (get_possible_actions.map (fun b =>
                 (dict_get? st.q_table (get_state_key post_state, b)).getD 0)) -
             (dict_get? st.q_table
               (get_state_key pre_state, a.name ++ "_" ++ a.operation)).getD 0)) := by
    simp [enrich, ha, update_rl_policies, calculate_reward]
  refine ⟨rfl, htab, ?_⟩
  rw [htab]
  exact dict_get?_dict_set_self _ _ _

/-- Snapshot with empty metrics, no violations, no anomalies and health 100,
used as a concrete fixture. -/
def empty_snapshot : Snapshot :=
  { derived_metrics := [], slo_violations := [], anomalies := [],
    health_score := 100 }

/-- A concrete scale-out action fixture. -/
def sample_action : Candidate :=
  { name := "horizontal", service := "svc", operation := "increase",
    amount := some 1, factor := none, priority := 1, utility := some 48 }

/-- A concrete decision fixture carrying the sample action. -/
def sample_decision : Decision :=
  { service := "svc", actions := [sample_action], candidates_evaluated := 1,
    confidence := 48 / 100, utility_scores := [("horizontal", 48)] }

/-- A concrete successful reflection fixture with health delta 15. -/
def sample_reflection : Reflection :=
  { success := true, reason := none, health_delta := some 15, improvements := [],
    degradations := [], side_effects := [], errors := [],
    actions_taken := ["horizontal"] }

/-- C5 witness: the update theorem at the concrete fixtures.  Starting from
an empty table, the entry for (low_low_healthy, horizontal_increase)
becomes 0 + 0.1 × (15/10 + 10 + 0.95 × 0 − 0) = 23/20. -/
theorem c5_q_update_witness :
    sample_decision.actions = [sample_action] ∧
    (enrich initial_enrich_state sample_reflection sample_decision empty_snapshot
        empty_snapshot).1.q_table =
      [(("low_low_healthy", "horizontal_increase"), 23 / 20)] := by
  constructor
  · rfl
  · rw [(c5_q_update initial_enrich_state sample_reflection sample_decision
      empty_snapshot empty_snapshot sample_action rfl).2.1]
    norm_num [initial_enrich_state, sample_reflection, sample_action, dict_set,
      dict_get?, get_state_key, get_possible_actions, list_max, metric_get,
      learning_rate, discount_factor, empty_snapshot]
    simp

/-! ## Claim C9: knowledge-store persistence -/

/-- C9 amended: the pickle file is written exactly on those enrich calls
where the incremented learning-cycle counter is a multiple of
RL_UPDATE_FREQUENCY; the shutdown path only writes the human-readable JSON
export and leaves the agent state — including the durable pickle file —
untouched, so it does not persist the knowledge base. -/
theorem c9_amended :
    (∀ (st : EnrichState) (reflection : Reflection) (decision : Decision)
        (pre_state post_state : Snapshot),
      (enrich st reflection decision pre_state post_state).1.learning_cycles =
        st.learning_cycles + 1 ∧
      (enrich st reflection decision pre_state post_state).1.durable =
        (if (st.learning_cycles + 1) % RL_UPDATE_FREQUENCY = 0 then
          (enrich st reflection decision pre_state post_state).1.kb
        else st.durable)) ∧
    (∀ st : EnrichState,
      (shutdown_flush st).1 = st ∧ (shutdown_flush st).2 = export_knowledge st) := by
  refine ⟨fun st reflection decision pre_state post_state => ⟨rfl, ?_⟩,
    fun st => ⟨rfl, rfl⟩⟩
  simp [enrich]

/-- EnrichState after one enrich call on a fresh agent: the concrete state
used by the C9 counterexample. -/
def one_cycle_state : EnrichState :=
  (enrich initial_enrich_state sample_reflection sample_decision empty_snapshot
    empty_snapshot).1

/-- C9 counterexample: after a single learning cycle the in-memory knowledge
base holds the cycle's statistics, but a clean shutdown leaves the durable
pickle store at its initial empty contents: the Knowledge Store is not
persisted unconditionally on process shutdown, and that cycle of learning
is lost — contradicting the claim's shutdown guarantee even though
1 < RL_UPDATE_FREQUENCY cycles elapsed. -/
theorem c9_counterexample :
    one_cycle_state.kb.statistics =
      some { total_adaptations := 1, successful_adaptations := 1,
             action_counts := [("horizontal", 1)],
             action_successes := [("horizontal", 1)] } ∧
    (shutdown_flush one_cycle_state).1.durable = { patterns := [], statistics := none } ∧
    (shutdown_flush one_cycle_state).1.durable ≠ one_cycle_state.kb := by
  have hkb : one_cycle_state.kb =
      { patterns := [],
        statistics :=
          some { total_adaptations := 1, successful_adaptations := 1,
                 action_counts := [("horizontal", 1)],
                 action_successes := [("horizontal", 1)] } } := by
    simp [one_cycle_state, enrich, mine_patterns, update_statistics,
      initial_enrich_state, sample_reflection, sample_decision, sample_action,
      empty_snapshot, create_pattern_key, metric_get, dict_get?, dict_bump,
      dict_set, pattern_support_floor, PATTERN_MINING_MIN_CONFIDENCE] <;> norm_num
  have hdur : one_cycle_state.durable = { patterns := [], statistics := none } := by
    simp [one_cycle_state, enrich, initial_enrich_state, RL_UPDATE_FREQUENCY]
  exact ⟨by rw [hkb], by simpa [shutdown_flush] using hdur,
    by rw [shutdown_flush, hkb, hdur]; simp⟩

/-! ## Claim C1: cycle behavior on execution failure -/

/-- A failing execution result fixture. -/
def fail_execution : ExecutionResult :=
  { success := false, actions_executed := 1, errors := ["scale failed"] }

/-- C1 amended: when the decision has actions and the Mutation Executor
reports overall failure, the cycle does NOT end there: it still runs Reflect
and Enrich — a Reflection with success false and reason "Execution failed"
(and no metric comparison) is produced, an enrichment result is returned,
and the Learning Engine's cycle counter advances, so the Knowledge Store is
updated for that cycle. -/
theorem c1_amended (st : EnrichState) (snap : Snapshot)
    (post_assess : Option Snapshot) (act_fn : Decision → ExecutionResult)
    (service : String)
    (h1 : (weigh snap service).actions ≠ [])
    (h2 : (act_fn (weigh snap service)).success = false) :
    (run_aware_cycle st (some snap) post_assess act_fn service).status = "completed" ∧
    (run_aware_cycle st (some snap) post_assess act_fn service).reflection =
      some { success := false, reason := some "Execution failed",
             health_delta := none, improvements := [], degradations := [],
             side_effects := [],
             errors := (act_fn (weigh snap service)).errors, actions_taken := [] } ∧
    (run_aware_cycle st (some snap) post_assess act_fn service).enrichment.isSome =
      true ∧
    (run_aware_cycle st (some snap) post_assess act_fn
        service).enrich_state.learning_cycles = st.learning_cycles + 1 := by
  simp only [run_aware_cycle]
  rw [if_neg h1]
  refine ⟨rfl, ?_, rfl, ?_⟩
  · simp [reflect, h2]
  · simp [enrich]

/-- C1 witness: the amended statement at the concrete snapshot whose decision
carries a scale-in action, against an always-failing executor. -/
theorem c1_amended_witness :
    (weigh empty_snapshot "svc").actions ≠ [] ∧
    ((fun _ => fail_execution : Decision → ExecutionResult)
        (weigh empty_snapshot "svc")).success = false ∧
    ((run_aware_cycle initial_enrich_state (some empty_snapshot)
        (some empty_snapshot) (fun _ => fail_execution) "svc").status = "completed" ∧
     (run_aware_cycle initial_enrich_state (some empty_snapshot)
        (some empty_snapshot) (fun _ => fail_execution) "svc").reflection =
       some { success := false, reason := some "Execution failed",
              health_delta := none, improvements := [], degradations := [],
              side_effects := [],
              errors := ((fun _ => fail_execution : Decision → ExecutionResult)
                (weigh empty_snapshot "svc")).errors, actions_taken := [] } ∧
     (run_aware_cycle initial_enrich_state (some empty_snapshot)
        (some empty_snapshot) (fun _ => fail_execution) "svc").enrichment.isSome =
       true ∧
     (run_aware_cycle initial_enrich_state (some empty_snapshot)
        (some empty_snapshot) (fun _ => fail_execution)
        "svc").enrich_state.learning_cycles =
       initial_enrich_state.learning_cycles + 1) := by
  have h1 : (weigh empty_snapshot "svc").actions ≠ [] := by
    simp [weigh, empty_snapshot, generate_candidates, evaluate_utilities,
      candidate_utility, select_actions, metric_get, dict_get?, max_error_rate,
      max_latency, min_throughput, max_cost_per_request] <;> norm_num
  exact ⟨h1, rfl,
    c1_amended initial_enrich_state empty_snapshot (some empty_snapshot)
      (fun _ => fail_execution) "svc" h1 rfl⟩

/-- C1 counterexample: a complete concrete cycle in which the Mutation
Executor reports overall failure, yet a Reflection is produced (success
false, reason "Execution failed") and the Learning Engine updates the
Knowledge Store for that cycle: the learning-cycle counter advances from 0
to 1 and the statistics dictionary — absent before the cycle — now counts
the failed adaptation.  The cycle does not end without Reflect and Enrich. -/
theorem c1_counterexample :
    (run_aware_cycle initial_enrich_state (some empty_snapshot)
        (some empty_snapshot) (fun _ => fail_execution) "svc").reflection =
      some { success := false, reason := some "Execution failed",
             health_delta := none, improvements := [], degradations := [],
             side_effects := [], errors := ["scale failed"], actions_taken := [] } ∧
    (run_aware_cycle initial_enrich_state (some empty_snapshot)
        (some empty_snapshot) (fun _ => fail_execution)
        "svc").enrich_state.learning_cycles = 1 ∧
    (run_aware_cycle initial_enrich_state (some empty_snapshot)
        (some empty_snapshot) (fun _ => fail_execution)
        "svc").enrich_state.kb.statistics =
      some { total_adaptations := 1, successful_adaptations := 0,
             action_counts := [("horizontal", 1)], action_successes := [] } ∧
    initial_enrich_state.kb.statistics = none := by
  have h1 : (weigh empty_snapshot "svc").actions ≠ [] := by
    simp [weigh, empty_snapshot, generate_candidates, evaluate_utilities,
      candidate_utility, select_actions, metric_get, dict_get?, max_error_rate,
      max_latency, min_throughput, max_cost_per_request] <;> norm_num
  refine ⟨?_, ?_, ?_, rfl⟩
  · simp only [run_aware_cycle]
    rw [if_neg h1]
    simp [reflect, fail_execution]
  · simp only [run_aware_cycle]
    rw [if_neg h1]
    simp [enrich, initial_enrich_state]
  · simp only [run_aware_cycle]
    rw [if_neg h1]
    have hact : (weigh empty_snapshot "svc").actions =
        [{ name := "horizontal", service := "svc", operation := "decrease",
           amount := some 1, factor := none, priority := 3, utility := some 40 }] := by
      simp [weigh, empty_snapshot, generate_candidates, evaluate_utilities,
        candidate_utility, select_actions, metric_get, dict_get?, max_error_rate,
        max_latency, min_throughput, max_cost_per_request] <;> norm_num <;> decide
    simp only [enrich, update_statistics, mine_patterns, hact]
    norm_num [initial_enrich_state, create_pattern_key, metric_get, dict_get?,
      dict_bump, dict_set, pattern_support_floor, PATTERN_MINING_MIN_CONFIDENCE,
      empty_snapshot]
    simp [reflect, fail_execution]
